import Mathlib

/-!
# Verification of the barrier-option pricing application

Shallow embedding of `src/barrier_streamlit.py` (a QuantLib-based barrier
option pricer) over the rationals.  The transcendental primitives that the
closed-form pricing formula consumes (exp, log, sqrt, the standard normal
CDF and the real power function) are abstracted into a `Prims` record so
that every definition stays computable; all algebraic and structural claims
are independent of the concrete primitives.
-/

namespace BarrierApp

/-- Option type, from the `option_type` selectbox (`"Call"` / `"Put"`). -/
inductive OptType where
  | call
  | put
deriving DecidableEq, Repr

/-- Barrier kind, the codomain of the source's `barrier_map` dictionary
(`ql.Barrier.UpOut` etc.). -/
inductive BKind where
  | upOut
  | upIn
  | downOut
  | downIn
deriving DecidableEq, Repr

/-- The selectbox string corresponding to each barrier kind
(`"Up-Out"`, `"Up-In"`, `"Down-Out"`, `"Down-In"`). -/
def bstr : BKind → String
  | .upOut => "Up-Out"
  | .upIn => "Up-In"
  | .downOut => "Down-Out"
  | .downIn => "Down-In"

/-- The source's `barrier_map` dict lookup: maps a selectbox string to the
QuantLib barrier kind; `none` models a `KeyError` on an unknown key. -/
def barrierMapLookup (s : String) : Option BKind :=
  if s = "Up-Out" then some .upOut
  else if s = "Up-In" then some .upIn
  else if s = "Down-Out" then some .downOut
  else if s = "Down-In" then some .downIn
  else none

/-- Does the first list occur at the head of the second one? -/
def listStarts : List Char → List Char → Bool
  | [], _ => true
  | _ :: _, [] => false
  | a :: as, b :: bs => a == b && listStarts as bs

/-- Does the first list occur contiguously anywhere inside the second one? -/
def listHasSub (pat : List Char) : List Char → Bool
  | [] => pat.isEmpty
  | b :: bs => listStarts pat (b :: bs) || listHasSub pat bs

/-- Python's substring test `pat in s`, as used on line 71/73 of the source
(`"Up-Out" in barrier_type_str`). -/
def strIn (pat s : String) : Bool :=
  listHasSub pat.data s.data

/-- The per-point payoff-diagram function, embedded from the body of the
`for s in S` loop (source lines 69-82): the knock test uses Python's
substring containment on the selectbox string, and the payoff is the plain
vanilla intrinsic value when not knocked. -/
def payoffAt (btStr : String) (o : OptType) (strike barrier s : ℚ) : ℚ :=
  let knocked : Bool :=
    (strIn "Up-Out" btStr && decide (barrier ≤ s)) ||
    (strIn "Down-Out" btStr && decide (s ≤ barrier))
  if knocked then 0
  else
    match o with
    | .call => max (s - strike) 0
    | .put => max (strike - s) 0

/-- Vanilla intrinsic payoff `max(S-K,0)` / `max(K-S,0)`. -/
def intrinsicPayoff (o : OptType) (s strike : ℚ) : ℚ :=
  match o with
  | .call => max (s - strike) 0
  | .put => max (strike - s) 0

/-- Is the kind an Up-kind? -/
def isUpKind : BKind → Bool
  | .upOut => true
  | .upIn => true
  | _ => false

/-- Is the kind a Down-kind? -/
def isDownKind : BKind → Bool
  | .downOut => true
  | .downIn => true
  | _ => false

/-- Is the kind a knock-out kind? -/
def isOutKind : BKind → Bool
  | .upOut => true
  | .downOut => true
  | _ => false

/-- Is the kind a knock-in kind? -/
def isInKind : BKind → Bool
  | .upIn => true
  | .downIn => true
  | _ => false

/-- The payoff-diagram behaviour exactly as claim C2 words it: knock status
is a threshold test on the kind's direction, and only `*-Out` kinds send a
knocked point to zero. -/
def specPayoffC2 (k : BKind) (o : OptType) (strike barrier s : ℚ) : ℚ :=
  let knocked : Bool :=
    (isUpKind k && decide (barrier ≤ s)) || (isDownKind k && decide (s ≤ barrier))
  if isOutKind k && knocked then 0 else intrinsicPayoff o s strike

theorem strIn_up_bstr (k : BKind) :
    strIn "Up-Out" (bstr k) = (k == BKind.upOut) := by
  cases k <;> rfl

theorem strIn_down_bstr (k : BKind) :
    strIn "Down-Out" (bstr k) = (k == BKind.downOut) := by
  cases k <;> rfl

/-- Abstract transcendental primitives consumed by the closed-form pricing
formula: exponential, natural log, square root, the standard normal CDF and
the real power function.  Keeping them abstract keeps every definition
computable; the algebraic claims hold for any choice. -/
structure Prims where
  exp : ℚ → ℚ
  log : ℚ → ℚ
  sqrt : ℚ → ℚ
  Phi : ℚ → ℚ
  qpow : ℚ → ℚ → ℚ

/-- Actual/365-Fixed year fraction between two serial dates, as the
`ql.Actual365Fixed()` day counter computes it: calendar days over 365. -/
def act365F (d1 d2 : ℤ) : ℚ :=
  ((d2 : ℚ) - (d1 : ℚ)) / 365

/-- Flat continuously-compounded curve (`ql.FlatForward(today, rate,
ql.Actual365Fixed())`), source lines 28-29: an anchor date and a constant
rate. -/
structure FlatCurve where
  anchor : ℤ
  rate : ℚ
deriving DecidableEq

/-- Discount factor of a flat continuously-compounded curve at a date:
`exp(-rate * act365F(anchor, d))`. -/
def FlatCurve.discount (p : Prims) (c : FlatCurve) (d : ℤ) : ℚ :=
  p.exp (-(c.rate * act365F c.anchor d))

/-- Flat Black volatility surface (`ql.BlackConstantVol(today,
ql.NullCalendar(), vol, ql.Actual365Fixed())`), source line 30. -/
structure ConstVol where
  anchor : ℤ
  sigma : ℚ
deriving DecidableEq

/-- Black volatility read off a flat surface: the same constant at every
date and strike. -/
def ConstVol.blackVol (c : ConstVol) (_d : ℤ) (_strike : ℚ) : ℚ :=
  c.sigma

/-- The Black-Scholes-Merton process assembled on source lines 27-31: spot
quote, dividend curve, risk-free curve and flat volatility.  The quote and
term-structure handles collapse to plain immutable values. -/
structure BSMProcess where
  spot : ℚ
  div : FlatCurve
  rf : FlatCurve
  vol : ConstVol
deriving DecidableEq

/-- The evaluation date set on source lines 22-23
(`ql.Settings.instance().evaluationDate = today`): it is today's date. -/
def evaluationDateOf (today : ℤ) : ℤ :=
  today

/-- Market-data assembly from source lines 27-31.  Note: the source performs
no validation whatsoever on spot or volatility. -/
def buildMarket (spot r q sig : ℚ) (today : ℤ) : BSMProcess :=
  ⟨spot, ⟨today, q⟩, ⟨today, r⟩, ⟨today, sig⟩⟩

/-- Modelled from the spec: the §4.1/§7 `InvalidMarketData` check
("spot≤0 or volatility<0 supplied to MarketModel — must be rejected before
engine construction").  This validated builder is absent from the source;
it is stated here only to compare with `buildMarket`. -/
def buildMarketChecked (spot r q sig : ℚ) (today : ℤ) : Option BSMProcess :=
  if spot ≤ 0 ∨ sig < 0 then none else some (buildMarket spot r q sig today)

/-- The barrier option constructed on source line 46:
`ql.BarrierOption(bar_type, barrier, 0.0, payoff, exercise)` — kind, level,
rebate, vanilla payoff (type + strike). -/
structure BarrierOptionSpec where
  kind : BKind
  level : ℚ
  rebate : ℚ
  optType : OptType
  strike : ℚ
deriving DecidableEq

/-- Construction of the barrier option exactly as on source line 46: the
rebate argument is the literal `0.0`. -/
def mkBarrierOption (k : BKind) (level strike : ℚ) (o : OptType) : BarrierOptionSpec :=
  ⟨k, level, 0, o, strike⟩

/-- Is the spot already at or through the barrier at the evaluation date
(the threshold test of the kind's direction)? -/
def knockedAtEval (k : BKind) (S H : ℚ) : Bool :=
  if isUpKind k then decide (H ≤ S) else decide (S ≤ H)

/-- Does the knock-adjusted payoff pay the vanilla intrinsic value (as a
function of knock status and In/Out semantics)? -/
def payActive (k : BKind) (S H : ℚ) : Bool :=
  if isInKind k then knockedAtEval k S H else !(knockedAtEval k S H)

/-- Modelled from the spec (§4.2, §8.3): the knock-adjusted intrinsic payoff
at spot, used as the degenerate (τ=0 / already-knocked) value of the
analytic engine, which lives in the QuantLib library and not under `src/`:
an Out option that is knocked (or an In option that is not) is worth 0,
otherwise the vanilla intrinsic value. -/
def knockAdjIntrinsic (k : BKind) (o : OptType) (S K H : ℚ) : ℚ :=
  if payActive k S H then intrinsicPayoff o S K else 0

/-- Is the pricing degenerate: non-positive time to maturity or spot already
knocked through the barrier at the evaluation date (spec §4.2)? -/
def degenerate (k : BKind) (S H tau : ℚ) : Bool :=
  decide (tau ≤ 0) || knockedAtEval k S H

/-- Option-type sign φ of the Reiner-Rubinstein/Haug formulas: +1 for a
call, -1 for a put. -/
def phiSign : OptType → ℚ
  | .call => 1
  | .put => -1

/-- Barrier-direction sign η of the Reiner-Rubinstein/Haug formulas: -1 for
Up kinds, +1 for Down kinds. -/
def etaSign (k : BKind) : ℚ :=
  if isUpKind k then -1 else 1

/-- σ√τ, the total standard deviation over the option's life. -/
def stdDev (p : Prims) (sig tau : ℚ) : ℚ :=
  sig * p.sqrt tau

/-- Drift parameter μ = (b - σ²/2)/σ² with cost of carry b = r - q. -/
def muPar (r q sig : ℚ) : ℚ :=
  ((r - q) - sig ^ 2 / 2) / sig ^ 2

/-- Rebate-at-hit parameter λ = sqrt(μ² + 2r/σ²). -/
def lamPar (p : Prims) (r q sig : ℚ) : ℚ :=
  p.sqrt (muPar r q sig ^ 2 + 2 * r / sig ^ 2)

/-- Haug A term (the plain Black-Scholes vanilla value). -/
def stdA (p : Prims) (phi S K r q sig tau : ℚ) : ℚ :=
  let sd := stdDev p sig tau
  let x1 := p.log (S / K) / sd + (1 + muPar r q sig) * sd
  phi * S * p.exp (-(q * tau)) * p.Phi (phi * x1) -
    phi * K * p.exp (-(r * tau)) * p.Phi (phi * x1 - phi * sd)

/-- Haug B term (strike replaced by the barrier in the exercise boundary). -/
def stdB (p : Prims) (phi S K H r q sig tau : ℚ) : ℚ :=
  let sd := stdDev p sig tau
  let x2 := p.log (S / H) / sd + (1 + muPar r q sig) * sd
  phi * S * p.exp (-(q * tau)) * p.Phi (phi * x2) -
    phi * K * p.exp (-(r * tau)) * p.Phi (phi * x2 - phi * sd)

/-- Haug C term (reflected at the barrier, strike boundary). -/
def stdC (p : Prims) (phi eta S K H r q sig tau : ℚ) : ℚ :=
  let sd := stdDev p sig tau
  let mu := muPar r q sig
  let y1 := p.log (H ^ 2 / (S * K)) / sd + (1 + mu) * sd
  phi * S * p.exp (-(q * tau)) * p.qpow (H / S) (2 * (mu + 1)) * p.Phi (eta * y1) -
    phi * K * p.exp (-(r * tau)) * p.qpow (H / S) (2 * mu) * p.Phi (eta * y1 - eta * sd)

/-- Haug D term (reflected at the barrier, barrier boundary). -/
def stdD (p : Prims) (phi eta S K H r q sig tau : ℚ) : ℚ :=
  let sd := stdDev p sig tau
  let mu := muPar r q sig
  let y2 := p.log (H / S) / sd + (1 + mu) * sd
  phi * S * p.exp (-(q * tau)) * p.qpow (H / S) (2 * (mu + 1)) * p.Phi (eta * y2) -
    phi * K * p.exp (-(r * tau)) * p.qpow (H / S) (2 * mu) * p.Phi (eta * y2 - eta * sd)

/-- Haug E term: rebate paid at expiry for knock-in options that never
knock in.  Proportional to the rebate. -/
def stdE (p : Prims) (eta S _K H reb r q sig tau : ℚ) : ℚ :=
  let sd := stdDev p sig tau
  let mu := muPar r q sig
  let x2 := p.log (S / H) / sd + (1 + mu) * sd
  let y2 := p.log (H / S) / sd + (1 + mu) * sd
  reb * p.exp (-(r * tau)) *
    (p.Phi (eta * x2 - eta * sd) - p.qpow (H / S) (2 * mu) * p.Phi (eta * y2 - eta * sd))

/-- Haug F term: rebate paid at hit for knock-out options.  Proportional to
the rebate. -/
def stdF (p : Prims) (eta S _K H reb r q sig tau : ℚ) : ℚ :=
  let sd := stdDev p sig tau
  let mu := muPar r q sig
  let lam := lamPar p r q sig
  let z := p.log (H / S) / sd + lam * sd
  reb * (p.qpow (H / S) (mu + lam) * p.Phi (eta * z) +
    p.qpow (H / S) (mu - lam) * p.Phi (eta * z - 2 * eta * lam * sd))

/-- Modelled from the spec (§4.2 "analytic Black-Scholes barrier formula
(Reiner-Rubinstein family)"): the non-degenerate closed-form price, by
barrier kind, option type and the strike-vs-barrier branch, as the
QuantLib `AnalyticBarrierEngine` (not under `src/`) computes it. -/
def haugPrice (p : Prims) (k : BKind) (o : OptType) (S K H reb r q sig tau : ℚ) : ℚ :=
  let phi := phiSign o
  let eta := etaSign k
  let A := stdA p phi S K r q sig tau
  let B := stdB p phi S K H r q sig tau
  let C := stdC p phi eta S K H r q sig tau
  let D := stdD p phi eta S K H r q sig tau
  let E := stdE p eta S K H reb r q sig tau
  let F := stdF p eta S K H reb r q sig tau
  match k, o with
  | .downIn, .call => if H ≤ K then C + E else A - B + D + E
  | .upIn, .call => if H ≤ K then A + E else B - C + D + E
  | .downIn, .put => if H ≤ K then B - C + D + E else A + E
  | .upIn, .put => if H ≤ K then A - B + D + E else C + E
  | .downOut, .call => if H ≤ K then A - C + F else B - D + F
  | .upOut, .call => if H ≤ K then F else A - B + C - D + F
  | .downOut, .put => if H ≤ K then A - B + C - D + F else F
  | .upOut, .put => if H ≤ K then B - D + F else A - C + F

/-- European vanilla Black-Scholes value of the same payoff (the Haug A
term). -/
def vanillaNPV (p : Prims) (o : OptType) (S K r q sig tau : ℚ) : ℚ :=
  stdA p (phiSign o) S K r q sig tau

/-- Modelled from the spec: NPV of the analytic barrier engine
(`option.NPV()`, source line 49; the engine itself is QuantLib library code
not under `src/`).  Degenerate pricing (τ≤0 or spot already knocked through
at the evaluation date, spec §4.2/§8.3) returns the knock-adjusted
intrinsic payoff; otherwise the Reiner-Rubinstein closed form. -/
def engineNPV (p : Prims) (k : BKind) (o : OptType) (S K H reb r q sig tau : ℚ) : ℚ :=
  if degenerate k S H tau then knockAdjIntrinsic k o S K H
  else haugPrice p k o S K H reb r q sig tau

/-- Modelled from the spec: the non-degenerate closed form with the rebate
terms (E/F) removed — the price of the bare in/out payoff without any
rebate contribution. -/
def haugPriceCore (p : Prims) (k : BKind) (o : OptType) (S K H r q sig tau : ℚ) : ℚ :=
  let phi := phiSign o
  let eta := etaSign k
  let A := stdA p phi S K r q sig tau
  let B := stdB p phi S K H r q sig tau
  let C := stdC p phi eta S K H r q sig tau
  let D := stdD p phi eta S K H r q sig tau
  match k, o with
  | .downIn, .call => if H ≤ K then C else A - B + D
  | .upIn, .call => if H ≤ K then A else B - C + D
  | .downIn, .put => if H ≤ K then B - C + D else A
  | .upIn, .put => if H ≤ K then A - B + D else C
  | .downOut, .call => if H ≤ K then A - C else B - D
  | .upOut, .call => if H ≤ K then 0 else A - B + C - D
  | .downOut, .put => if H ≤ K then A - B + C - D else 0
  | .upOut, .put => if H ≤ K then B - D else A - C

/-- Modelled from the spec: rebate-free engine NPV (same degenerate branch,
no E/F terms in the formula branch). -/
def engineNPVCore (p : Prims) (k : BKind) (o : OptType) (S K H r q sig tau : ℚ) : ℚ :=
  if degenerate k S H tau then knockAdjIntrinsic k o S K H
  else haugPriceCore p k o S K H r q sig tau

/-- Relative bump size of the central finite differences (spec §4.2: "a
small consistent bump (e.g. 1e-4 relative)"). -/
def fdBump : ℚ :=
  1 / 10000

/-- Modelled from the spec (§4.2): delta at a degenerate point — the
right-hand slope of the knock-adjusted intrinsic payoff at spot. -/
def degenDelta (k : BKind) (o : OptType) (S K H : ℚ) : ℚ :=
  if payActive k S H then
    match o with
    | .call => if K ≤ S then 1 else 0
    | .put => if S < K then -1 else 0
  else 0

/-- Modelled from the spec (§4.2): engine delta — degenerate pricing yields
the intrinsic-slope limit, otherwise a central finite difference of the
engine NPV in spot with a 1e-4 relative bump. -/
def engineDelta (p : Prims) (k : BKind) (o : OptType) (S K H reb r q sig tau : ℚ) : ℚ :=
  if degenerate k S H tau then degenDelta k o S K H
  else
    (engineNPV p k o (S * (1 + fdBump)) K H reb r q sig tau -
      engineNPV p k o (S * (1 - fdBump)) K H reb r q sig tau) / (2 * S * fdBump)

/-- Modelled from the spec (§4.2, §8.3): engine gamma — 0 at a degenerate
point, otherwise a second central finite difference of the engine NPV in
spot. -/
def engineGamma (p : Prims) (k : BKind) (o : OptType) (S K H reb r q sig tau : ℚ) : ℚ :=
  if degenerate k S H tau then 0
  else
    (engineNPV p k o (S * (1 + fdBump)) K H reb r q sig tau -
      2 * engineNPV p k o S K H reb r q sig tau +
      engineNPV p k o (S * (1 - fdBump)) K H reb r q sig tau) / (S * fdBump) ^ 2

/-- Modelled from the spec (§4.2, §8.3): engine vega — 0 at a degenerate
point, otherwise a central finite difference of the engine NPV in
volatility. -/
def engineVega (p : Prims) (k : BKind) (o : OptType) (S K H reb r q sig tau : ℚ) : ℚ :=
  if degenerate k S H tau then 0
  else
    (engineNPV p k o S K H reb r q (sig * (1 + fdBump)) tau -
      engineNPV p k o S K H reb r q (sig * (1 - fdBump)) tau) / (2 * sig * fdBump)

/-- Modelled from the spec (§4.2, §8.3): engine theta — 0 at a degenerate
point, otherwise the negated central finite difference of the engine NPV in
time to maturity. -/
def engineTheta (p : Prims) (k : BKind) (o : OptType) (S K H reb r q sig tau : ℚ) : ℚ :=
  if degenerate k S H tau then 0
  else
    -((engineNPV p k o S K H reb r q sig (tau * (1 + fdBump)) -
      engineNPV p k o S K H reb r q sig (tau * (1 - fdBump))) / (2 * tau * fdBump))

/-- Modelled from the spec (§4.2, §8.3): engine rho — 0 at a degenerate
point, otherwise a central finite difference of the engine NPV in the
risk-free rate. -/
def engineRho (p : Prims) (k : BKind) (o : OptType) (S K H reb r q sig tau : ℚ) : ℚ :=
  if degenerate k S H tau then 0
  else
    (engineNPV p k o S K H reb (r * (1 + fdBump)) q sig tau -
      engineNPV p k o S K H reb (r * (1 - fdBump)) q sig tau) / (2 * r * fdBump)

/-- The record of outputs the script displays (source lines 49-54 and
56-63). -/
structure PricingResult where
  npv : ℚ
  delta : ℚ
  gamma : ℚ
  vega : ℚ
  theta : ℚ
  rho : ℚ
deriving DecidableEq, Repr

/-- The pricing pipeline of source lines 22-54 for a resolved barrier kind:
set the evaluation date to today, build the market process, construct the
barrier option with rebate `0.0`, compute the NPV, and guard each Greek
with `... if price != 0 else 0.0`. -/
def computeResultsK (p : Prims) (k : BKind) (o : OptType)
    (spot strike barrier r q sig : ℚ) (today mat : ℤ) : PricingResult :=
  let evalDate := evaluationDateOf today
  let proc := buildMarket spot r q sig evalDate
  let opt := mkBarrierOption k barrier strike o
  let tau := act365F evalDate mat
  let price := engineNPV p opt.kind opt.optType proc.spot opt.strike opt.level
    opt.rebate proc.rf.rate proc.div.rate proc.vol.sigma tau
  ⟨price,
    if price ≠ 0 then
      engineDelta p opt.kind opt.optType proc.spot opt.strike opt.level
        opt.rebate proc.rf.rate proc.div.rate proc.vol.sigma tau
    else 0,
    if price ≠ 0 then
      engineGamma p opt.kind opt.optType proc.spot opt.strike opt.level
        opt.rebate proc.rf.rate proc.div.rate proc.vol.sigma tau
    else 0,
    if price ≠ 0 then
      engineVega p opt.kind opt.optType proc.spot opt.strike opt.level
        opt.rebate proc.rf.rate proc.div.rate proc.vol.sigma tau
    else 0,
    if price ≠ 0 then
      engineTheta p opt.kind opt.optType proc.spot opt.strike opt.level
        opt.rebate proc.rf.rate proc.div.rate proc.vol.sigma tau
    else 0,
    if price ≠ 0 then
      engineRho p opt.kind opt.optType proc.spot opt.strike opt.level
        opt.rebate proc.rf.rate proc.div.rate proc.vol.sigma tau
    else 0⟩

/-- The full pipeline keyed by the selectbox string, including the
`barrier_map[barrier_type_str]` lookup (source line 40). -/
def computeResults (p : Prims) (btStr : String) (o : OptType)
    (spot strike barrier r q sig : ℚ) (today mat : ℤ) : Option PricingResult :=
  (barrierMapLookup btStr).map
    (fun k => computeResultsK p k o spot strike barrier r q sig today mat)

/-- Concrete instantiation of the primitives (each transcendental replaced
by the identity), used only to evaluate witnesses on concrete inputs. -/
def idPrims : Prims :=
  ⟨fun x => x, fun x => x, fun x => x, fun x => x, fun a b => a * b⟩

/-! ## Helper lemmas -/

theorem computeResults_bstr (p : Prims) (k : BKind) (o : OptType)
    (spot strike barrier r q sig : ℚ) (t m : ℤ) :
    computeResults p (bstr k) o spot strike barrier r q sig t m =
      some (computeResultsK p k o spot strike barrier r q sig t m) := by
  cases k <;> rfl

theorem degenerate_false_of (k : BKind) (S H tau : ℚ) (h1 : 0 < tau)
    (h2 : knockedAtEval k S H = false) : degenerate k S H tau = false := by
  simp only [degenerate, h2, Bool.or_false, decide_eq_false_iff_not, not_le]
  exact h1

theorem engineNPV_formula (p : Prims) (k : BKind) (o : OptType)
    (S K H reb r q sig tau : ℚ) (h : degenerate k S H tau = false) :
    engineNPV p k o S K H reb r q sig tau = haugPrice p k o S K H reb r q sig tau := by
  simp [engineNPV, h]

theorem haug_up_parity (p : Prims) (o : OptType) (S K H r q sig tau : ℚ) :
    haugPrice p .upIn o S K H 0 r q sig tau + haugPrice p .upOut o S K H 0 r q sig tau =
      vanillaNPV p o S K r q sig tau := by
  cases o <;>
    simp only [haugPrice, vanillaNPV, phiSign, etaSign, isUpKind, stdE, stdF, zero_mul] <;>
    by_cases h : H ≤ K <;> simp only [h, if_true, if_false] <;> ring

theorem haug_down_parity (p : Prims) (o : OptType) (S K H r q sig tau : ℚ) :
    haugPrice p .downIn o S K H 0 r q sig tau + haugPrice p .downOut o S K H 0 r q sig tau =
      vanillaNPV p o S K r q sig tau := by
  cases o <;>
    simp only [haugPrice, vanillaNPV, phiSign, etaSign, isUpKind, stdE, stdF, zero_mul] <;>
    by_cases h : H ≤ K <;> simp only [h, if_true, if_false] <;> ring

theorem engineNPV_zero_rebate (p : Prims) (k : BKind) (o : OptType)
    (S K H r q sig tau : ℚ) :
    engineNPV p k o S K H 0 r q sig tau = engineNPVCore p k o S K H r q sig tau := by
  unfold engineNPV engineNPVCore
  by_cases h : degenerate k S H tau = true
  · simp [h]
  · simp only [Bool.not_eq_true] at h
    simp only [h, Bool.false_eq_true, if_false]
    cases k <;> cases o <;>
      simp only [haugPrice, haugPriceCore, stdE, stdF, zero_mul] <;>
      by_cases hb : H ≤ K <;> simp only [hb, if_true, if_false] <;> ring

/-! ## Claim theorems -/

/-- C1: for every valid input set (spot, strike, barrier, τ>0, r, q, σ≥0)
with the barrier on the conventionally correct side, the Up-In NPV plus the
Up-Out NPV equals the European vanilla NPV of the same payoff, and likewise
Down-In plus Down-Out, within 1e-6 relative tolerance (in fact exactly). -/
theorem c1_in_out_parity (p : Prims) (o : OptType) (S K H r q sig tau : ℚ)
    (_hS : 0 < S) (_hK : 0 < K) (_hH : 0 < H) (htau : 0 < tau) (_hsig : 0 ≤ sig) :
    (S < H →
      |engineNPV p .upIn o S K H 0 r q sig tau + engineNPV p .upOut o S K H 0 r q sig tau -
        vanillaNPV p o S K r q sig tau| ≤ 1 / 1000000 * |vanillaNPV p o S K r q sig tau|) ∧
    (H < S →
      |engineNPV p .downIn o S K H 0 r q sig tau + engineNPV p .downOut o S K H 0 r q sig tau -
        vanillaNPV p o S K r q sig tau| ≤ 1 / 1000000 * |vanillaNPV p o S K r q sig tau|) := by
  constructor
  · intro hside
    have hkn : ∀ k, isUpKind k = true → knockedAtEval k S H = false := by
      intro k hk
      simp [knockedAtEval, hk, not_le.mpr hside]
    rw [engineNPV_formula p _ o S K H 0 r q sig tau
        (degenerate_false_of _ S H tau htau (hkn .upIn rfl)),
      engineNPV_formula p _ o S K H 0 r q sig tau
        (degenerate_false_of _ S H tau htau (hkn .upOut rfl)),
      haug_up_parity, sub_self, abs_zero]
    positivity
  · intro hside
    have hkn : ∀ k, isUpKind k = false → knockedAtEval k S H = false := by
      intro k hk
      simp [knockedAtEval, hk, not_le.mpr hside]
    rw [engineNPV_formula p _ o S K H 0 r q sig tau
        (degenerate_false_of _ S H tau htau (hkn .downIn rfl)),
      engineNPV_formula p _ o S K H 0 r q sig tau
        (degenerate_false_of _ S H tau htau (hkn .downOut rfl)),
      haug_down_parity, sub_self, abs_zero]
    positivity

/-- Witness for C1 at spot 100, strike 100, r 1%, q 0, σ 20%, τ 1: parity
for the Up pair at barrier 120 and the Down pair at barrier 80. -/
theorem c1_in_out_parity_witness :
    (|engineNPV idPrims .upIn .call 100 100 120 0 (1 / 100) 0 (1 / 5) 1 +
      engineNPV idPrims .upOut .call 100 100 120 0 (1 / 100) 0 (1 / 5) 1 -
      vanillaNPV idPrims .call 100 100 (1 / 100) 0 (1 / 5) 1| ≤
      1 / 1000000 * |vanillaNPV idPrims .call 100 100 (1 / 100) 0 (1 / 5) 1|) ∧
    (|engineNPV idPrims .downIn .call 100 100 80 0 (1 / 100) 0 (1 / 5) 1 +
      engineNPV idPrims .downOut .call 100 100 80 0 (1 / 100) 0 (1 / 5) 1 -
      vanillaNPV idPrims .call 100 100 (1 / 100) 0 (1 / 5) 1| ≤
      1 / 1000000 * |vanillaNPV idPrims .call 100 100 (1 / 100) 0 (1 / 5) 1|) :=
  ⟨(c1_in_out_parity idPrims .call 100 100 120 (1 / 100) 0 (1 / 5) 1
      (by norm_num) (by norm_num) (by norm_num) (by norm_num) (by norm_num)).1 (by norm_num),
    (c1_in_out_parity idPrims .call 100 100 80 (1 / 100) 0 (1 / 5) 1
      (by norm_num) (by norm_num) (by norm_num) (by norm_num) (by norm_num)).2 (by norm_num)⟩

/-- C2: the payoff-diagram function is a pure function of the underlying
price; Up* kinds count as knocked at `s ≥ barrier`, Down* kinds at
`s ≤ barrier`, `*-Out` kinds send a knocked point to 0 (rebate ignored) and
every other point pays the vanilla intrinsic value; in particular for
Down-Out, strike 100, barrier 90, Call: payoff 0 at 85, 0 at 95, 10 at
110. -/
theorem c2_payoff_diagram :
    (∀ (k : BKind) (o : OptType) (strike barrier s : ℚ),
      payoffAt (bstr k) o strike barrier s = specPayoffC2 k o strike barrier s) ∧
    payoffAt "Down-Out" OptType.call 100 90 85 = 0 ∧
    payoffAt "Down-Out" OptType.call 100 90 95 = 0 ∧
    payoffAt "Down-Out" OptType.call 100 90 110 = 10 := by
  have hu : strIn "Up-Out" "Down-Out" = false := rfl
  have hd : strIn "Down-Out" "Down-Out" = true := rfl
  refine ⟨?_, by norm_num [payoffAt, hu, hd], by norm_num [payoffAt, hu, hd],
    by norm_num [payoffAt, hu, hd]⟩
  intro k o strike barrier s
  cases k <;> cases o <;>
    simp [payoffAt, specPayoffC2, strIn_up_bstr, strIn_down_bstr,
      isUpKind, isDownKind, isOutKind, intrinsicPayoff]

/-- Counterexample to C3: for the Up-In kind with strike 100, barrier 120,
Call, the diagram payoff at S = 130 (which satisfies the Up threshold test
130 ≥ 120) is the vanilla intrinsic value 30, not 0. -/
theorem c3_counterexample :
    payoffAt (bstr BKind.upIn) OptType.call 100 120 130 = 30 ∧
    payoffAt (bstr BKind.upIn) OptType.call 100 120 130 ≠ 0 := by
  have hu : strIn "Up-Out" "Up-In" = false := rfl
  have hd : strIn "Down-Out" "Up-In" = false := rfl
  norm_num [payoffAt, bstr, hu, hd]

/-- C3 (amended): for the `*-In` barrier kinds the diagram function applies
no knock rule at all — the payoff is the plain vanilla intrinsic value at
every underlying price, including prices past the barrier. -/
theorem c3_in_kinds_vanilla (k : BKind) (hk : isInKind k = true) :
    ∀ (o : OptType) (strike barrier s : ℚ),
      payoffAt (bstr k) o strike barrier s = intrinsicPayoff o s strike := by
  intro o strike barrier s
  cases k <;> simp_all [isInKind] <;> cases o <;>
    simp [payoffAt, strIn, intrinsicPayoff, listHasSub, listStarts]

/-- Witness for the amended C3: the Up-In diagram payoff at S = 130 is the
intrinsic value. -/
theorem c3_in_kinds_vanilla_witness :
    payoffAt (bstr BKind.upIn) OptType.call 100 120 130 =
      intrinsicPayoff OptType.call 130 100 :=
  c3_in_kinds_vanilla BKind.upIn (by decide) OptType.call 100 120 130

/-- Concrete pipeline run: Down-Out call, spot 100, strike 90, barrier 80,
zero rates and volatility, maturity equal to the evaluation date. -/
theorem evalDownOutAtExpiry :
    computeResults idPrims "Down-Out" OptType.call 100 90 80 0 0 0 0 0 =
      some ⟨10, 1, 0, 0, 0, 0⟩ := by
  rw [show ("Down-Out" : String) = bstr .downOut from rfl, computeResults_bstr]
  norm_num [computeResultsK, engineNPV, engineDelta, engineGamma, engineVega,
    engineTheta, engineRho, degenerate, knockedAtEval, knockAdjIntrinsic, payActive,
    degenDelta, isUpKind, isInKind, intrinsicPayoff, act365F, evaluationDateOf,
    buildMarket, mkBarrierOption, idPrims]

/-- Concrete pipeline run: the same option with maturity one day strictly
before the evaluation date (negative time to maturity). -/
theorem evalDownOutPastExpiry :
    computeResults idPrims "Down-Out" OptType.call 100 90 80 0 0 0 0 (-1) =
      some ⟨10, 1, 0, 0, 0, 0⟩ := by
  rw [show ("Down-Out" : String) = bstr .downOut from rfl, computeResults_bstr]
  norm_num [computeResultsK, engineNPV, engineDelta, engineGamma, engineVega,
    engineTheta, engineRho, degenerate, knockedAtEval, knockAdjIntrinsic, payActive,
    degenDelta, isUpKind, isInKind, intrinsicPayoff, act365F, evaluationDateOf,
    buildMarket, mkBarrierOption, idPrims]

/-- Concrete pipeline run with invalid market data (spot 0 and negative
volatility): an Up-Out put, strike 100, barrier 120, at expiry. -/
theorem evalZeroSpotPut :
    computeResults idPrims "Up-Out" OptType.put 0 100 120 (1 / 100) 0 (-(1 / 5)) 0 0 =
      some ⟨100, -1, 0, 0, 0, 0⟩ := by
  rw [show ("Up-Out" : String) = bstr .upOut from rfl, computeResults_bstr]
  norm_num [computeResultsK, engineNPV, engineDelta, engineGamma, engineVega,
    engineTheta, engineRho, degenerate, knockedAtEval, knockAdjIntrinsic, payActive,
    degenDelta, isUpKind, isInKind, intrinsicPayoff, act365F, evaluationDateOf,
    buildMarket, mkBarrierOption, idPrims]

/-- C4: when the time to maturity is zero, or the spot is already knocked
through the barrier at the evaluation date, the pipeline's NPV equals the
knock-adjusted intrinsic payoff at spot and gamma, vega, theta and rho are
reported as 0.  (The embedding is total over ℚ, so no NaN or infinity can
be produced.) -/
theorem c4_degenerate_pricing (p : Prims) (k : BKind) (o : OptType)
    (spot strike barrier r q sig : ℚ) (t m : ℤ)
    (hdeg : t = m ∨ knockedAtEval k spot barrier = true) :
    ∀ res, computeResults p (bstr k) o spot strike barrier r q sig t m = some res →
      res.npv = knockAdjIntrinsic k o spot strike barrier ∧
      res.gamma = 0 ∧ res.vega = 0 ∧ res.theta = 0 ∧ res.rho = 0 := by
  intro res h
  rw [computeResults_bstr] at h
  obtain rfl := Option.some.inj h
  have hdg : degenerate k spot barrier (act365F t m) = true := by
    rcases hdeg with h1 | h1
    · subst h1
      simp [degenerate, act365F]
    · simp [degenerate, h1]
  refine ⟨?_, ?_, ?_, ?_, ?_⟩ <;>
    simp [computeResultsK, engineNPV, engineGamma, engineVega, engineTheta, engineRho,
      mkBarrierOption, buildMarket, evaluationDateOf, hdg]

/-- Witness for C4 at the Down-Out call with spot 100, strike 90, barrier
80 and maturity equal to the evaluation date. -/
theorem c4_degenerate_pricing_witness :
    (⟨10, 1, 0, 0, 0, 0⟩ : PricingResult).npv =
      knockAdjIntrinsic .downOut .call 100 90 80 ∧
    (⟨10, 1, 0, 0, 0, 0⟩ : PricingResult).gamma = 0 ∧
    (⟨10, 1, 0, 0, 0, 0⟩ : PricingResult).vega = 0 ∧
    (⟨10, 1, 0, 0, 0, 0⟩ : PricingResult).theta = 0 ∧
    (⟨10, 1, 0, 0, 0, 0⟩ : PricingResult).rho = 0 :=
  c4_degenerate_pricing idPrims .downOut .call 100 90 80 0 0 0 0 0 (Or.inl rfl)
    ⟨10, 1, 0, 0, 0, 0⟩ evalDownOutAtExpiry

/-- Counterexample to C5: with spot 0 and volatility -20% the pipeline does
not reject the market data; it constructs the engine and computes an NPV of
100 and a delta of -1 (while the spec-modelled validated builder would have
rejected this input). -/
theorem c5_counterexample :
    buildMarketChecked 0 (1 / 100) 0 (-(1 / 5)) 0 = none ∧
    computeResults idPrims "Up-Out" OptType.put 0 100 120 (1 / 100) 0 (-(1 / 5)) 0 0 =
      some ⟨100, -1, 0, 0, 0, 0⟩ :=
  ⟨by norm_num [buildMarketChecked], evalZeroSpotPut⟩

/-- C5 (amended): the source performs no market-data validation at all —
for any spot and volatility, including spot ≤ 0 or volatility < 0, the
pipeline computes the NPV from the literal values. -/
theorem c5_no_market_validation (p : Prims) (k : BKind) (o : OptType)
    (spot strike barrier r q sig : ℚ) (t m : ℤ)
    (_h : spot ≤ 0 ∨ sig < 0) :
    (computeResults p (bstr k) o spot strike barrier r q sig t m).map
      (fun res => res.npv) =
      some (engineNPV p k o spot strike barrier 0 r q sig (act365F t m)) := by
  rw [computeResults_bstr]
  rfl

/-- Witness for the amended C5 at spot 0 and volatility -20%. -/
theorem c5_no_market_validation_witness :
    (computeResults idPrims (bstr .upOut) OptType.put 0 100 120 (1 / 100) 0
      (-(1 / 5)) 0 0).map (fun res => res.npv) =
      some (engineNPV idPrims .upOut .put 0 100 120 0 (1 / 100) 0 (-(1 / 5))
        (act365F 0 0)) :=
  c5_no_market_validation idPrims .upOut .put 0 100 120 (1 / 100) 0 (-(1 / 5)) 0 0
    (Or.inl (by norm_num))

/-- Counterexample to C6: with the maturity date one day strictly before
the evaluation date (negative time to maturity) engine construction does
not fail — the pipeline still produces a full pricing result. -/
theorem c6_counterexample :
    computeResults idPrims "Down-Out" OptType.call 100 90 80 0 0 0 0 (-1) =
      some ⟨10, 1, 0, 0, 0, 0⟩ :=
  evalDownOutPastExpiry

/-- C6 (amended): no `InvalidExercise` rejection exists — for any maturity
date at or before the evaluation date the pipeline produces a result whose
NPV is the degenerate knock-adjusted intrinsic value (maturity equal to the
evaluation date included). -/
theorem c6_no_exercise_validation (p : Prims) (k : BKind) (o : OptType)
    (spot strike barrier r q sig : ℚ) (t m : ℤ) (h : m ≤ t) :
    (computeResults p (bstr k) o spot strike barrier r q sig t m).map
      (fun res => res.npv) =
      some (knockAdjIntrinsic k o spot strike barrier) := by
  rw [computeResults_bstr]
  have htau : act365F t m ≤ 0 := by
    unfold act365F
    apply div_nonpos_of_nonpos_of_nonneg
    · simpa [sub_nonpos] using (by exact_mod_cast h : (m : ℚ) ≤ (t : ℚ))
    · norm_num
  have hdg : degenerate k spot barrier (act365F t m) = true := by
    simp [degenerate, htau]
  simp [computeResultsK, engineNPV, mkBarrierOption, buildMarket, evaluationDateOf, hdg]

/-- Witness for the amended C6 at a maturity one day before evaluation. -/
theorem c6_no_exercise_validation_witness :
    (computeResults idPrims (bstr .downOut) OptType.call 100 90 80 0 0 0 0 (-1)).map
      (fun res => res.npv) = some (knockAdjIntrinsic .downOut .call 100 90 80) :=
  c6_no_exercise_validation idPrims .downOut .call 100 90 80 0 0 0 0 (-1) (by decide)

/-- C7: the pricing pipeline is a deterministic function of its scalar
inputs — two results produced from identical inputs agree in NPV and all
five Greeks. -/
theorem c7_determinism (p : Prims) (btStr : String) (o : OptType)
    (spot strike barrier r q sig : ℚ) (t m : ℤ) :
    ∀ r1 r2 : PricingResult,
      computeResults p btStr o spot strike barrier r q sig t m = some r1 →
      computeResults p btStr o spot strike barrier r q sig t m = some r2 →
      r1.npv = r2.npv ∧ r1.delta = r2.delta ∧ r1.gamma = r2.gamma ∧
        r1.vega = r2.vega ∧ r1.theta = r2.theta ∧ r1.rho = r2.rho := by
  intro r1 r2 h1 h2
  rw [h1] at h2
  obtain rfl := Option.some.inj h2
  exact ⟨rfl, rfl, rfl, rfl, rfl, rfl⟩

/-- Witness for C7: two runs of the pipeline on the same concrete inputs. -/
theorem c7_determinism_witness :
    (⟨10, 1, 0, 0, 0, 0⟩ : PricingResult).npv = (⟨10, 1, 0, 0, 0, 0⟩ : PricingResult).npv ∧
    (⟨10, 1, 0, 0, 0, 0⟩ : PricingResult).delta = (⟨10, 1, 0, 0, 0, 0⟩ : PricingResult).delta ∧
    (⟨10, 1, 0, 0, 0, 0⟩ : PricingResult).gamma = (⟨10, 1, 0, 0, 0, 0⟩ : PricingResult).gamma ∧
    (⟨10, 1, 0, 0, 0, 0⟩ : PricingResult).vega = (⟨10, 1, 0, 0, 0, 0⟩ : PricingResult).vega ∧
    (⟨10, 1, 0, 0, 0, 0⟩ : PricingResult).theta = (⟨10, 1, 0, 0, 0, 0⟩ : PricingResult).theta ∧
    (⟨10, 1, 0, 0, 0, 0⟩ : PricingResult).rho = (⟨10, 1, 0, 0, 0, 0⟩ : PricingResult).rho :=
  c7_determinism idPrims "Down-Out" OptType.call 100 90 80 0 0 0 0 0
    ⟨10, 1, 0, 0, 0, 0⟩ ⟨10, 1, 0, 0, 0, 0⟩ evalDownOutAtExpiry evalDownOutAtExpiry

/-- C8: the market model is flat continuously-compounded risk-free and
dividend curves and a flat Black volatility, all anchored at the evaluation
date with the Actual/365-Fixed day count (year fraction = days/365), and
the evaluation date is today's date. -/
theorem c8_market_model (p : Prims) (spot r q sig : ℚ) (today : ℤ) :
    (buildMarket spot r q sig today).spot = spot ∧
    (buildMarket spot r q sig today).rf.anchor = evaluationDateOf today ∧
    (buildMarket spot r q sig today).div.anchor = evaluationDateOf today ∧
    (buildMarket spot r q sig today).vol.anchor = evaluationDateOf today ∧
    (buildMarket spot r q sig today).rf.rate = r ∧
    (buildMarket spot r q sig today).div.rate = q ∧
    evaluationDateOf today = today ∧
    (∀ d : ℤ, FlatCurve.discount p (buildMarket spot r q sig today).rf d =
      p.exp (-(r * (((d : ℚ) - (today : ℚ)) / 365)))) ∧
    (∀ d : ℤ, FlatCurve.discount p (buildMarket spot r q sig today).div d =
      p.exp (-(q * (((d : ℚ) - (today : ℚ)) / 365)))) ∧
    (∀ (d : ℤ) (strike : ℚ),
      ConstVol.blackVol (buildMarket spot r q sig today).vol d strike = sig) :=
  ⟨rfl, rfl, rfl, rfl, rfl, rfl, rfl, fun _ => rfl, fun _ => rfl, fun _ _ => rfl⟩

/-- C9: the barrier option is always constructed with a rebate of exactly
0, the rebate terms of the closed form vanish at rebate 0, and the
pipeline's NPV therefore equals the rebate-free core price. -/
theorem c9_zero_rebate :
    (∀ (k : BKind) (level strike : ℚ) (o : OptType),
      (mkBarrierOption k level strike o).rebate = 0) ∧
    (∀ (p : Prims) (eta S K H r q sig tau : ℚ),
      stdE p eta S K H 0 r q sig tau = 0 ∧ stdF p eta S K H 0 r q sig tau = 0) ∧
    (∀ (p : Prims) (k : BKind) (o : OptType) (S K H r q sig tau : ℚ),
      engineNPV p k o S K H 0 r q sig tau = engineNPVCore p k o S K H r q sig tau) ∧
    (∀ (p : Prims) (k : BKind) (o : OptType) (spot strike barrier r q sig : ℚ)
      (t m : ℤ),
      (computeResultsK p k o spot strike barrier r q sig t m).npv =
        engineNPVCore p k o spot strike barrier r q sig (act365F t m)) :=
  ⟨fun _ _ _ _ => rfl,
    fun p eta S K H r q sig tau => ⟨by simp [stdE], by simp [stdF]⟩,
    fun p k o S K H r q sig tau => engineNPV_zero_rebate p k o S K H r q sig tau,
    fun p k o spot strike barrier r q sig t m =>
      engineNPV_zero_rebate p k o spot strike barrier r q sig (act365F t m)⟩

/-- C10: whenever the computed NPV is exactly 0 every reported Greek is 0,
and whenever it is nonzero every reported Greek is taken directly from the
engine with no further guard. -/
theorem c10_greek_guard (p : Prims) (k : BKind) (o : OptType)
    (spot strike barrier r q sig : ℚ) (t m : ℤ) :
    ∀ res, computeResults p (bstr k) o spot strike barrier r q sig t m = some res →
      (res.npv = 0 →
        res.delta = 0 ∧ res.gamma = 0 ∧ res.vega = 0 ∧ res.theta = 0 ∧ res.rho = 0) ∧
      (res.npv ≠ 0 →
        res.delta = engineDelta p k o spot strike barrier 0 r q sig (act365F t m) ∧
        res.gamma = engineGamma p k o spot strike barrier 0 r q sig (act365F t m) ∧
        res.vega = engineVega p k o spot strike barrier 0 r q sig (act365F t m) ∧
        res.theta = engineTheta p k o spot strike barrier 0 r q sig (act365F t m) ∧
        res.rho = engineRho p k o spot strike barrier 0 r q sig (act365F t m)) := by
  intro res h
  rw [computeResults_bstr] at h
  obtain rfl := Option.some.inj h
  constructor
  · intro hz
    have hz' : engineNPV p k o spot strike barrier 0 r q sig (act365F t m) = 0 := hz
    refine ⟨?_, ?_, ?_, ?_, ?_⟩ <;>
      simp [computeResultsK, mkBarrierOption, buildMarket, evaluationDateOf, hz']
  · intro hz
    have hz' : ¬engineNPV p k o spot strike barrier 0 r q sig (act365F t m) = 0 := hz
    refine ⟨?_, ?_, ?_, ?_, ?_⟩ <;>
      simp [computeResultsK, mkBarrierOption, buildMarket, evaluationDateOf, hz']

/-- Witness for C10 at a pipeline run whose NPV is the nonzero value 10:
the reported Greeks are the engine's. -/
theorem c10_greek_guard_witness :
    ((⟨10, 1, 0, 0, 0, 0⟩ : PricingResult).npv = 0 →
      (⟨10, 1, 0, 0, 0, 0⟩ : PricingResult).delta = 0 ∧
      (⟨10, 1, 0, 0, 0, 0⟩ : PricingResult).gamma = 0 ∧
      (⟨10, 1, 0, 0, 0, 0⟩ : PricingResult).vega = 0 ∧
      (⟨10, 1, 0, 0, 0, 0⟩ : PricingResult).theta = 0 ∧
      (⟨10, 1, 0, 0, 0, 0⟩ : PricingResult).rho = 0) ∧
    ((⟨10, 1, 0, 0, 0, 0⟩ : PricingResult).npv ≠ 0 →
      (⟨10, 1, 0, 0, 0, 0⟩ : PricingResult).delta =
        engineDelta idPrims .downOut .call 100 90 80 0 0 0 0 (act365F 0 0) ∧
      (⟨10, 1, 0, 0, 0, 0⟩ : PricingResult).gamma =
        engineGamma idPrims .downOut .call 100 90 80 0 0 0 0 (act365F 0 0) ∧
      (⟨10, 1, 0, 0, 0, 0⟩ : PricingResult).vega =
        engineVega idPrims .downOut .call 100 90 80 0 0 0 0 (act365F 0 0) ∧
      (⟨10, 1, 0, 0, 0, 0⟩ : PricingResult).theta =
        engineTheta idPrims .downOut .call 100 90 80 0 0 0 0 (act365F 0 0) ∧
      (⟨10, 1, 0, 0, 0, 0⟩ : PricingResult).rho =
        engineRho idPrims .downOut .call 100 90 80 0 0 0 0 (act365F 0 0)) :=
  c10_greek_guard idPrims .downOut .call 100 90 80 0 0 0 0 0 ⟨10, 1, 0, 0, 0, 0⟩
    evalDownOutAtExpiry

end BarrierApp
